import Mathlib

/-
Verification development for the async request builder of postgrest-py
(src/postgrest/_async/request_builder.py).

The Python module is shallowly embedded: request descriptors, responses and
errors become plain Lean data; the transport collaborator becomes a function
from request records to responses; a call to execute returns both its
Except-style outcome (normal return vs raised APIError) and the trace of
transport requests it issued.  Collaborator code that is not part of the
source file (the APIError / APIResponse / SingleAPIResponse classes and the
pre_* descriptor functions) is modelled from the specification and marked as
such in doc comments.
-/

set_option autoImplicit false

namespace Postgrest

/-- JSON values, the payload type carried in request bodies and responses. -/
inductive Json where
  | null : Json
  | bool (b : Bool) : Json
  | num (n : Int) : Json
  | str (s : String) : Json
  | arr (xs : List Json) : Json
  | obj (fields : List (String × Json)) : Json

/-- Whether the character list `pre` is an initial segment of `l`. -/
def leadsWith : List Char → List Char → Bool
  | [], _ => true
  | _ :: _, [] => false
  | a :: as, b :: bs => a == b && leadsWith as bs

/-- Whether `needle` occurs as a contiguous sublist of `hay`. -/
def hasSubList (needle : List Char) : List Char → Bool
  | [] => needle.isEmpty
  | c :: rest => leadsWith needle (c :: rest) || hasSubList needle rest

/-- Python's substring containment test `needle in hay` on strings. -/
def strContainsSub (hay needle : String) : Bool :=
  hasSubList needle.data hay.data

/-- First value bound to key `k` in a JSON object field list (dict lookup). -/
def lookupField : List (String × Json) → String → Option Json
  | [], _ => none
  | p :: rest, k => if p.1 == k then some p.2 else lookupField rest k

/-- Python dict `.get(k)` restricted to string values: `some s` when key `k`
is present and bound to a JSON string, `none` otherwise. -/
def jsonGetStr (j : Json) (k : String) : Option String :=
  match j with
  | Json.obj fields =>
    match lookupField fields k with
    | some (Json.str s) => some s
    | _ => none
  | _ => none

/-- The API error carried up the stack.  Modelled from the spec: message,
code, hint and details are sourced verbatim from the upstream error JSON
(the exceptions module defining class APIError is not under src). -/
structure APIError where
  message : Option String
  code : Option String
  hint : Option String
  details : Option String
deriving DecidableEq, Repr

/-- Modelled from the spec: the APIError constructor takes the parsed error
JSON object and copies the message, code, hint and details keys verbatim. -/
def APIError.fromJson (j : Json) : APIError :=
  ⟨jsonGetStr j "message", jsonGetStr j "code", jsonGetStr j "hint", jsonGetStr j "details"⟩

/-- A pydantic validation failure produced while parsing a response body
into the expected response shape; it remembers the offending body. -/
structure ValidationError where
  raw : Json

/-- One raised Python exception as observed by callers of execute: the
APIError itself plus the chained cause when it was raised with from-clause
over a body-parse failure. -/
structure Raised where
  error : APIError
  cause : Option ValidationError

/-- The plural API response.  Modelled from the spec: data is always a
sequence of rows; count is optional (the base_request_builder module
defining class APIResponse is not under src). -/
structure APIResponse where
  data : List Json
  count : Option Int

/-- The single-row API response.  Modelled from the spec: data is a single
row object or null; count is optional. -/
structure SingleAPIResponse where
  data : Json
  count : Option Int

/-- Modelled from the spec: APIResponse.from_http_request_response parses a
successful body, which must be either a JSON array of rows or a JSON object
carrying a count-bearing wrapper; any other shape is a validation failure
reported with the raw body. -/
def APIResponse.from_http_request_response (body : Json) : Except ValidationError APIResponse :=
  match body with
  | Json.arr xs => Except.ok ⟨xs, none⟩
  | Json.obj fields =>
    match lookupField fields "data", lookupField fields "count" with
    | some (Json.arr xs), some (Json.num n) => Except.ok ⟨xs, some n⟩
    | _, _ => Except.error ⟨body⟩
  | _ => Except.error ⟨body⟩

/-- Modelled from the spec: SingleAPIResponse.from_http_request_response
parses the successful body as exactly one row object (not an array); any
other shape is a validation failure reported with the raw body. -/
def SingleAPIResponse.from_http_request_response (body : Json) : Except ValidationError SingleAPIResponse :=
  match body with
  | Json.obj fields => Except.ok ⟨Json.obj fields, none⟩
  | _ => Except.error ⟨body⟩

/-- Modelled from the spec: the value built by SingleAPIResponse.from_dict
on data = None, error = None, count = 0 in the zero-rows recovery path. -/
def SingleAPIResponse.emptyResult : SingleAPIResponse :=
  ⟨Json.null, some 0⟩

/-- The substring of the upstream error details that marks the recoverable
zero-rows condition. -/
def zeroRowsMsg : String := "Results contain 0 rows"

/-- The synthetic local error raised by the Maybe-Single executor when it
reaches the end of execute without a stored response (field values copied
verbatim from the source dict literal). -/
def missingResponseError : APIError :=
  ⟨some "Missing response",
   some "204",
   some "Please check traceback of the code",
   some "Postgrest couldn't retrieve response, please check traceback of the code. Please create an issue in `supabase-community/postgrest-py` if needed."⟩

/-- The arguments of one transport call: session.request(method, path,
json, params, headers). -/
structure RequestRecord where
  http_method : String
  path : String
  json : Json
  params : List (String × String)
  headers : List (String × String)

/-- An HTTP response as this module consumes it: numeric status code plus
the parsed JSON body returned by response.json(). -/
structure Response where
  status_code : Nat
  body : Json

/-- The transport collaborator: one request operation resolving to a
response. -/
def Transport : Type := RequestRecord → Response

/-- ASCII lowercase of one character (Python str.lower on header names). -/
def lowerChar (c : Char) : Char :=
  if 65 ≤ c.toNat ∧ c.toNat ≤ 90 then Char.ofNat (c.toNat + 32) else c

/-- ASCII lowercase of a string, the header-name normalization httpx
applies to its case-insensitive header map. -/
def lowerStr (s : String) : String :=
  ⟨s.data.map lowerChar⟩

/-- Case-insensitive header lookup (httpx Headers access). -/
def getHeader : List (String × String) → String → Option String
  | [], _ => none
  | p :: rest, k => if lowerStr p.1 == lowerStr k then some p.2 else getHeader rest k

/-- Case-insensitive header assignment (httpx Headers item assignment):
replace the first entry with a matching key, or append when absent. -/
def setHeader : List (String × String) → String → String → List (String × String)
  | [], k, v => [(k, v)]
  | p :: rest, k, v =>
    if lowerStr p.1 == lowerStr k then (k, v) :: rest else p :: setHeader rest k v

/-- class AsyncQueryRequestBuilder: one fully built request descriptor.
The session is an opaque token; the transport function itself is passed to
execute. -/
structure AsyncQueryRequestBuilder where
  session : Nat
  path : String
  http_method : String
  headers : List (String × String)
  params : List (String × String)
  json : Json

/-- class AsyncSingleRequestBuilder: same descriptor fields, single-row
response parsing. -/
structure AsyncSingleRequestBuilder where
  session : Nat
  path : String
  http_method : String
  headers : List (String × String)
  params : List (String × String)
  json : Json

/-- class AsyncMaybeSingleRequestBuilder extends AsyncSingleRequestBuilder;
the subclass adds no fields. -/
structure AsyncMaybeSingleRequestBuilder where
  session : Nat
  path : String
  http_method : String
  headers : List (String × String)
  params : List (String × String)
  json : Json

/-- The inherited view of a Maybe-Single builder as its Single-Row
superclass (same attribute values). -/
def AsyncMaybeSingleRequestBuilder.toSingle (b : AsyncMaybeSingleRequestBuilder) : AsyncSingleRequestBuilder :=
  ⟨b.session, b.path, b.http_method, b.headers, b.params, b.json⟩

/-- The request record a Query builder hands to session.request. -/
def AsyncQueryRequestBuilder.requestOf (b : AsyncQueryRequestBuilder) : RequestRecord :=
  ⟨b.http_method, b.path, b.json, b.params, b.headers⟩

/-- The request record a Single-Row builder hands to session.request. -/
def AsyncSingleRequestBuilder.requestOf (b : AsyncSingleRequestBuilder) : RequestRecord :=
  ⟨b.http_method, b.path, b.json, b.params, b.headers⟩

/-- Response classification of AsyncQueryRequestBuilder.execute: status in
200..299 parses the body as an APIResponse, converting a parse failure into
an APIError over the raw body chained from the failure; any other status
raises an APIError parsed from the body. -/
def queryOutcome (r : Response) : Except Raised APIResponse :=
  if 200 ≤ r.status_code ∧ r.status_code ≤ 299 then
    match APIResponse.from_http_request_response r.body with
    | Except.ok resp => Except.ok resp
    | Except.error e => Except.error ⟨APIError.fromJson r.body, some e⟩
  else
    Except.error ⟨APIError.fromJson r.body, none⟩

/-- Response classification of AsyncSingleRequestBuilder.execute, identical
to queryOutcome but parsing a single-row body. -/
def singleOutcome (r : Response) : Except Raised SingleAPIResponse :=
  if 200 ≤ r.status_code ∧ r.status_code ≤ 299 then
    match SingleAPIResponse.from_http_request_response r.body with
    | Except.ok resp => Except.ok resp
    | Except.error e => Except.error ⟨APIError.fromJson r.body, some e⟩
  else
    Except.error ⟨APIError.fromJson r.body, none⟩

/-- AsyncQueryRequestBuilder.execute: one transport call with the stored
descriptor, then classification; the second component is the trace of
transport requests issued by this call. -/
def AsyncQueryRequestBuilder.execute (t : Transport) (b : AsyncQueryRequestBuilder) :
    Except Raised APIResponse × List RequestRecord :=
  (queryOutcome (t b.requestOf), [b.requestOf])

/-- AsyncSingleRequestBuilder.execute: one transport call with the stored
descriptor, then single-row classification. -/
def AsyncSingleRequestBuilder.execute (t : Transport) (b : AsyncSingleRequestBuilder) :
    Except Raised SingleAPIResponse × List RequestRecord :=
  (singleOutcome (t b.requestOf), [b.requestOf])

/-- The body of AsyncMaybeSingleRequestBuilder.execute after the inner
super().execute() call, tracking Python control flow exactly: a caught
APIError whose truthy details contain the zero-rows substring returns the
empty result; any other caught APIError falls through; then the final
`if not r` test raises the synthetic missing-response error when no truthy
response is at hand, else returns the response.  Truthiness of a response
object is the Python truth test on the returned SingleAPIResponse, kept
abstract as a parameter. -/
def maybeOutcome (truthy : SingleAPIResponse → Bool)
    (res : Except Raised SingleAPIResponse) : Except Raised SingleAPIResponse :=
  match res with
  | Except.ok r =>
    if truthy r then Except.ok r else Except.error ⟨missingResponseError, none⟩
  | Except.error e =>
    match e.error.details with
    | some d =>
      if d ≠ "" ∧ strContainsSub d zeroRowsMsg = true then
        Except.ok SingleAPIResponse.emptyResult
      else
        Except.error ⟨missingResponseError, none⟩
    | none => Except.error ⟨missingResponseError, none⟩

/-- AsyncMaybeSingleRequestBuilder.execute: runs the superclass execute and
post-processes its outcome with maybeOutcome. -/
def AsyncMaybeSingleRequestBuilder.execute (truthy : SingleAPIResponse → Bool)
    (t : Transport) (b : AsyncMaybeSingleRequestBuilder) :
    Except Raised SingleAPIResponse × List RequestRecord :=
  let inner := AsyncSingleRequestBuilder.execute t b.toSingle
  (maybeOutcome truthy inner.1, inner.2)

/-- class AsyncFilterRequestBuilder: filter capability over a Query
descriptor; the filter mixin adds behavior, not state, so the descriptor
fields coincide with the Query builder fields. -/
structure AsyncFilterRequestBuilder where
  session : Nat
  path : String
  http_method : String
  headers : List (String × String)
  params : List (String × String)
  json : Json

/-- class AsyncSelectRequestBuilder: select capability over a Query
descriptor. -/
structure AsyncSelectRequestBuilder where
  session : Nat
  path : String
  http_method : String
  headers : List (String × String)
  params : List (String × String)
  json : Json

/-- The Accept value requesting a single-object representation. -/
def singleObjectAccept : String := "application/vnd.pgrst.object+json"

/-- AsyncSelectRequestBuilder.single: assigns the Accept header of the
builder header map in place and returns a Single-Row executor built from
the same (now mutated) descriptor fields.  The mutation is embedded by
returning the post-mutation builder alongside the executor; both carry the
one updated header map. -/
def AsyncSelectRequestBuilder.single (b : AsyncSelectRequestBuilder) :
    AsyncSelectRequestBuilder × AsyncSingleRequestBuilder :=
  let hs := setHeader b.headers "Accept" singleObjectAccept
  (⟨b.session, b.path, b.http_method, hs, b.params, b.json⟩,
   ⟨b.session, b.path, b.http_method, hs, b.params, b.json⟩)

/-- AsyncSelectRequestBuilder.maybe_single: same header mutation, returning
a Maybe-Single executor. -/
def AsyncSelectRequestBuilder.maybe_single (b : AsyncSelectRequestBuilder) :
    AsyncSelectRequestBuilder × AsyncMaybeSingleRequestBuilder :=
  let hs := setHeader b.headers "Accept" singleObjectAccept
  (⟨b.session, b.path, b.http_method, hs, b.params, b.json⟩,
   ⟨b.session, b.path, b.http_method, hs, b.params, b.json⟩)

/-- Count preference enumeration (from the types module, per the spec). -/
inductive CountMethod where
  | exact : CountMethod
  | planned : CountMethod
  | estimated : CountMethod
deriving DecidableEq, Repr

/-- Return preference enumeration (from the types module, per the spec). -/
inductive ReturnMethod where
  | minimal : ReturnMethod
  | representation : ReturnMethod
deriving DecidableEq, Repr

/-- Wire spelling of a count method. -/
def CountMethod.toStr : CountMethod → String
  | CountMethod.exact => "exact"
  | CountMethod.planned => "planned"
  | CountMethod.estimated => "estimated"

/-- Wire spelling of a return method. -/
def ReturnMethod.toStr : ReturnMethod → String
  | ReturnMethod.minimal => "minimal"
  | ReturnMethod.representation => "representation"

/-- Header entries declaring the count-returning preference, when one was
requested. -/
def prefCount : Option CountMethod → List (String × String)
  | none => []
  | some c => [("Prefer", "count=" ++ c.toStr)]

/-- Header entry declaring the return preference. -/
def prefReturn (r : ReturnMethod) : List (String × String) :=
  [("Prefer", "return=" ++ r.toStr)]

/-- Modelled from the spec: pre_select, a pure function producing the GET
descriptor (method, params, headers, json) for a column selection; no
columns selects all columns. -/
def pre_select (columns : List String) (count : Option CountMethod) :
    String × List (String × String) × List (String × String) × Json :=
  ("GET",
   [("select", if columns.isEmpty then "*" else String.intercalate "," columns)],
   prefCount count,
   Json.null)

/-- Modelled from the spec: pre_insert, a pure function producing the POST
descriptor for an insert; the upsert flag adds the conflict-resolution
preference header. -/
def pre_insert (json : Json) (count : Option CountMethod) (returning : ReturnMethod)
    (upsert : Bool) :
    String × List (String × String) × List (String × String) × Json :=
  ("POST",
   [],
   prefReturn returning ++ prefCount count ++
     (if upsert then [("Prefer", "resolution=merge-duplicates")] else []),
   json)

/-- Modelled from the spec: pre_upsert, a pure function producing the POST
descriptor for an upsert; ignore_duplicates selects the conflict-resolution
preference. -/
def pre_upsert (json : Json) (count : Option CountMethod) (returning : ReturnMethod)
    (ignore_duplicates : Bool) :
    String × List (String × String) × List (String × String) × Json :=
  ("POST",
   [],
   prefReturn returning ++ prefCount count ++
     [("Prefer", if ignore_duplicates then "resolution=ignore-duplicates"
       else "resolution=merge-duplicates")],
   json)

/-- Modelled from the spec: pre_update, a pure function producing the PATCH
descriptor for an update. -/
def pre_update (json : Json) (count : Option CountMethod) (returning : ReturnMethod) :
    String × List (String × String) × List (String × String) × Json :=
  ("PATCH", [], prefReturn returning ++ prefCount count, json)

/-- Modelled from the spec: pre_delete, a pure function producing the
DELETE descriptor. -/
def pre_delete (count : Option CountMethod) (returning : ReturnMethod) :
    String × List (String × String) × List (String × String) × Json :=
  ("DELETE", [], prefReturn returning ++ prefCount count, Json.null)

/-- class AsyncRequestBuilder: the root entry point holding the session and
the resource path. -/
structure AsyncRequestBuilder where
  session : Nat
  path : String

/-- Resolution of the Python keyword default for the returning argument:
an omitted argument (none) stands for ReturnMethod.representation. -/
def resolveReturning : Option ReturnMethod → ReturnMethod
  | none => ReturnMethod.representation
  | some r => r

/-- AsyncRequestBuilder.select: delegates to pre_select and wraps the
descriptor in a Select builder. -/
def AsyncRequestBuilder.select (rb : AsyncRequestBuilder) (columns : List String)
    (count : Option CountMethod) : AsyncSelectRequestBuilder :=
  let r := pre_select columns count
  ⟨rb.session, rb.path, r.1, r.2.2.1, r.2.1, r.2.2.2⟩

/-- AsyncRequestBuilder.insert: delegates to pre_insert and wraps the
descriptor in a plain Query builder; an omitted returning argument is the
Python keyword default. -/
def AsyncRequestBuilder.insert (rb : AsyncRequestBuilder) (json : Json)
    (count : Option CountMethod) (returning : Option ReturnMethod) (upsert : Bool) :
    AsyncQueryRequestBuilder :=
  let r := pre_insert json count (resolveReturning returning) upsert
  ⟨rb.session, rb.path, r.1, r.2.2.1, r.2.1, r.2.2.2⟩

/-- AsyncRequestBuilder.upsert: delegates to pre_upsert and wraps the
descriptor in a plain Query builder. -/
def AsyncRequestBuilder.upsert (rb : AsyncRequestBuilder) (json : Json)
    (count : Option CountMethod) (returning : Option ReturnMethod)
    (ignore_duplicates : Bool) : AsyncQueryRequestBuilder :=
  let r := pre_upsert json count (resolveReturning returning) ignore_duplicates
  ⟨rb.session, rb.path, r.1, r.2.2.1, r.2.1, r.2.2.2⟩

/-- AsyncRequestBuilder.update: delegates to pre_update and wraps the
descriptor in a Filter builder. -/
def AsyncRequestBuilder.update (rb : AsyncRequestBuilder) (json : Json)
    (count : Option CountMethod) (returning : Option ReturnMethod) :
    AsyncFilterRequestBuilder :=
  let r := pre_update json count (resolveReturning returning)
  ⟨rb.session, rb.path, r.1, r.2.2.1, r.2.1, r.2.2.2⟩

/-- AsyncRequestBuilder.delete: delegates to pre_delete and wraps the
descriptor in a Filter builder. -/
def AsyncRequestBuilder.delete (rb : AsyncRequestBuilder)
    (count : Option CountMethod) (returning : Option ReturnMethod) :
    AsyncFilterRequestBuilder :=
  let r := pre_delete count (resolveReturning returning)
  ⟨rb.session, rb.path, r.1, r.2.2.1, r.2.1, r.2.2.2⟩

theorem getHeader_setHeader_same (hs : List (String × String)) (k v : String) :
    getHeader (setHeader hs k v) k = some v := by
  induction hs with
  | nil => simp [setHeader, getHeader]
  | cons p rest ih =>
    cases hp : lowerStr p.1 == lowerStr k with
    | true => simp [setHeader, hp, getHeader]
    | false => simp [setHeader, hp, getHeader, ih]

theorem getHeader_setHeader_other (hs : List (String × String)) (k v k' : String)
    (h : lowerStr k' ≠ lowerStr k) :
    getHeader (setHeader hs k v) k' = getHeader hs k' := by
  have hk : (lowerStr k == lowerStr k') = false := by
    simp only [beq_eq_false_iff_ne]
    exact fun hh => h hh.symm
  induction hs with
  | nil => simp [setHeader, getHeader, hk]
  | cons p rest ih =>
    cases hp : lowerStr p.1 == lowerStr k with
    | true =>
      have hpk : lowerStr p.1 = lowerStr k := eq_of_beq hp
      simp [setHeader, hp, getHeader, hk, hpk]
    | false => simp [setHeader, hp, getHeader, ih]

/-- C7: single() and maybe_single() assign the Accept entry of the builder
header map in place to the single-object media type, so the mutated builder
and the returned executor hold the same header map; every other header
entry is unchanged, and the executor carries the builder session, path,
method, params and json body unchanged. -/
theorem single_and_maybe_single_share_mutated_descriptor
    (b : AsyncSelectRequestBuilder) :
    (b.single.2.headers = b.single.1.headers ∧
     getHeader b.single.1.headers "Accept" = some singleObjectAccept ∧
     (∀ k : String, lowerStr k ≠ lowerStr "Accept" →
       getHeader b.single.1.headers k = getHeader b.headers k) ∧
     b.single.1.session = b.session ∧ b.single.1.path = b.path ∧
     b.single.1.http_method = b.http_method ∧ b.single.1.params = b.params ∧
     b.single.1.json = b.json ∧
     b.single.2.session = b.session ∧ b.single.2.path = b.path ∧
     b.single.2.http_method = b.http_method ∧ b.single.2.params = b.params ∧
     b.single.2.json = b.json) ∧
    (b.maybe_single.2.headers = b.maybe_single.1.headers ∧
     getHeader b.maybe_single.1.headers "Accept" = some singleObjectAccept ∧
     (∀ k : String, lowerStr k ≠ lowerStr "Accept" →
       getHeader b.maybe_single.1.headers k = getHeader b.headers k) ∧
     b.maybe_single.1.session = b.session ∧ b.maybe_single.1.path = b.path ∧
     b.maybe_single.1.http_method = b.http_method ∧
     b.maybe_single.1.params = b.params ∧ b.maybe_single.1.json = b.json ∧
     b.maybe_single.2.session = b.session ∧ b.maybe_single.2.path = b.path ∧
     b.maybe_single.2.http_method = b.http_method ∧
     b.maybe_single.2.params = b.params ∧ b.maybe_single.2.json = b.json) :=
  ⟨⟨rfl, getHeader_setHeader_same b.headers "Accept" singleObjectAccept,
    fun k hk => getHeader_setHeader_other b.headers "Accept" singleObjectAccept k hk,
    rfl, rfl, rfl, rfl, rfl, rfl, rfl, rfl, rfl, rfl⟩,
   ⟨rfl, getHeader_setHeader_same b.headers "Accept" singleObjectAccept,
    fun k hk => getHeader_setHeader_other b.headers "Accept" singleObjectAccept k hk,
    rfl, rfl, rfl, rfl, rfl, rfl, rfl, rfl, rfl, rfl⟩⟩

/-- Concrete Select builder used to witness C7. -/
def c7Builder : AsyncSelectRequestBuilder :=
  ⟨1, "countries", "GET", [("Accept", "application/json"), ("X-Test", "y")],
   [("select", "*")], Json.null⟩

/-- C7 witness: at a concrete builder, the Accept entry is set, the map is
shared with the executor, and a distinct concrete header key is untouched. -/
theorem single_and_maybe_single_share_mutated_descriptor_witness :
    getHeader c7Builder.single.1.headers "Accept" = some singleObjectAccept ∧
    c7Builder.single.2.headers = c7Builder.single.1.headers ∧
    getHeader c7Builder.single.1.headers "X-Test" = getHeader c7Builder.headers "X-Test" :=
  ⟨(single_and_maybe_single_share_mutated_descriptor c7Builder).1.2.1,
   (single_and_maybe_single_share_mutated_descriptor c7Builder).1.1,
   (single_and_maybe_single_share_mutated_descriptor c7Builder).1.2.2.1 "X-Test" (by decide)⟩

/-- C8: each of the five root operations delegates descriptor construction
to its pre_* function and wraps the (method, params, headers, json) result
in the matching builder type, keeping the session and path; an omitted
returning argument resolves to the representation default. -/
theorem request_builder_delegates_to_pre_functions (rb : AsyncRequestBuilder)
    (columns : List String) (cnt : Option CountMethod) (j : Json)
    (r : Option ReturnMethod) (u i : Bool) :
    rb.select columns cnt =
      ⟨rb.session, rb.path, (pre_select columns cnt).1, (pre_select columns cnt).2.2.1,
       (pre_select columns cnt).2.1, (pre_select columns cnt).2.2.2⟩ ∧
    rb.insert j cnt r u =
      ⟨rb.session, rb.path, (pre_insert j cnt (resolveReturning r) u).1,
       (pre_insert j cnt (resolveReturning r) u).2.2.1,
       (pre_insert j cnt (resolveReturning r) u).2.1,
       (pre_insert j cnt (resolveReturning r) u).2.2.2⟩ ∧
    rb.upsert j cnt r i =
      ⟨rb.session, rb.path, (pre_upsert j cnt (resolveReturning r) i).1,
       (pre_upsert j cnt (resolveReturning r) i).2.2.1,
       (pre_upsert j cnt (resolveReturning r) i).2.1,
       (pre_upsert j cnt (resolveReturning r) i).2.2.2⟩ ∧
    rb.update j cnt r =
      ⟨rb.session, rb.path, (pre_update j cnt (resolveReturning r)).1,
       (pre_update j cnt (resolveReturning r)).2.2.1,
       (pre_update j cnt (resolveReturning r)).2.1,
       (pre_update j cnt (resolveReturning r)).2.2.2⟩ ∧
    rb.delete cnt r =
      ⟨rb.session, rb.path, (pre_delete cnt (resolveReturning r)).1,
       (pre_delete cnt (resolveReturning r)).2.2.1,
       (pre_delete cnt (resolveReturning r)).2.1,
       (pre_delete cnt (resolveReturning r)).2.2.2⟩ ∧
    resolveReturning none = ReturnMethod.representation :=
  ⟨rfl, rfl, rfl, rfl, rfl, rfl⟩

/-- C9: each execute issues exactly one transport request, carrying exactly
the stored method, path, json body, params and headers of its descriptor;
two calls to execute produce two identical requests. -/
theorem execute_sends_exactly_one_request (t : Transport)
    (qb : AsyncQueryRequestBuilder) (sb : AsyncSingleRequestBuilder)
    (mb : AsyncMaybeSingleRequestBuilder) (truthy : SingleAPIResponse → Bool) :
    (AsyncQueryRequestBuilder.execute t qb).2 =
      [⟨qb.http_method, qb.path, qb.json, qb.params, qb.headers⟩] ∧
    (AsyncSingleRequestBuilder.execute t sb).2 =
      [⟨sb.http_method, sb.path, sb.json, sb.params, sb.headers⟩] ∧
    (AsyncMaybeSingleRequestBuilder.execute truthy t mb).2 =
      [⟨mb.http_method, mb.path, mb.json, mb.params, mb.headers⟩] ∧
    (AsyncQueryRequestBuilder.execute t qb).2 ++ (AsyncQueryRequestBuilder.execute t qb).2 =
      [⟨qb.http_method, qb.path, qb.json, qb.params, qb.headers⟩,
       ⟨qb.http_method, qb.path, qb.json, qb.params, qb.headers⟩] :=
  ⟨rfl, rfl, rfl, rfl⟩

/-- C4: a status code in 200..299 with a JSON array body makes execute on a
plain Query builder return an API Response whose data is exactly the parsed
array, in order; any status code outside the range never returns normally. -/
theorem query_execute_classifies_by_status (t : Transport)
    (qb : AsyncQueryRequestBuilder) (rows : List Json) :
    (200 ≤ (t qb.requestOf).status_code → (t qb.requestOf).status_code ≤ 299 →
      (t qb.requestOf).body = Json.arr rows →
      (AsyncQueryRequestBuilder.execute t qb).1 = Except.ok ⟨rows, none⟩) ∧
    ((t qb.requestOf).status_code < 200 ∨ 299 < (t qb.requestOf).status_code →
      ∀ resp : APIResponse, (AsyncQueryRequestBuilder.execute t qb).1 ≠ Except.ok resp) := by
  constructor
  · intro h1 h2 hbody
    show queryOutcome (t qb.requestOf) = Except.ok ⟨rows, none⟩
    unfold queryOutcome
    rw [if_pos ⟨h1, h2⟩, hbody]
    rfl
  · intro h resp
    show queryOutcome (t qb.requestOf) ≠ Except.ok resp
    unfold queryOutcome
    rw [if_neg (by omega)]
    exact fun hc => Except.noConfusion hc

/-- Concrete transport used to witness the success half of C4. -/
def c4TransportOk : Transport :=
  fun _ => ⟨200, Json.arr [Json.obj [("id", Json.num 1)], Json.obj [("id", Json.num 2)]]⟩

/-- Concrete transport used to witness the failure half of C4. -/
def c4TransportErr : Transport :=
  fun _ => ⟨404, Json.obj [("message", Json.str "not found")]⟩

/-- Concrete Query builder used to witness C4. -/
def c4Builder : AsyncQueryRequestBuilder :=
  ⟨2, "countries", "GET", [("Accept", "application/json")], [("select", "*")], Json.null⟩

/-- C4 witness: at a concrete 200 response with a two-row array the data is
returned verbatim, and at a concrete 404 response execute does not return
normally. -/
theorem query_execute_classifies_by_status_witness :
    (AsyncQueryRequestBuilder.execute c4TransportOk c4Builder).1 =
      Except.ok ⟨[Json.obj [("id", Json.num 1)], Json.obj [("id", Json.num 2)]], none⟩ ∧
    (AsyncQueryRequestBuilder.execute c4TransportErr c4Builder).1 ≠
      Except.ok ⟨[], none⟩ :=
  ⟨(query_execute_classifies_by_status c4TransportOk c4Builder
      [Json.obj [("id", Json.num 1)], Json.obj [("id", Json.num 2)]]).1
      (by decide) (by decide) rfl,
   (query_execute_classifies_by_status c4TransportErr c4Builder []).2
      (by decide) ⟨[], none⟩⟩

/-- C5: a status code outside 200..299 whose body is the upstream error
object makes execute raise an APIError whose message, code, hint and
details equal the body fields verbatim, with no chained parse cause. -/
theorem query_execute_raises_verbatim_upstream_error (t : Transport)
    (qb : AsyncQueryRequestBuilder) (m c h d : String) :
    ((t qb.requestOf).status_code < 200 ∨ 299 < (t qb.requestOf).status_code) →
    (t qb.requestOf).body =
      Json.obj [("message", Json.str m), ("code", Json.str c),
                ("hint", Json.str h), ("details", Json.str d)] →
    (AsyncQueryRequestBuilder.execute t qb).1 =
      Except.error ⟨⟨some m, some c, some h, some d⟩, none⟩ := by
  intro h1 hbody
  show queryOutcome (t qb.requestOf) = _
  unfold queryOutcome
  rw [if_neg (by omega), hbody]
  rfl

/-- Concrete transport used to witness C5. -/
def c5Transport : Transport :=
  fun _ => ⟨404, Json.obj [("message", Json.str "relation does not exist"),
    ("code", Json.str "42P01"), ("hint", Json.str "check the table name"),
    ("details", Json.str "schema cache")]⟩

/-- Concrete Query builder used to witness C5. -/
def c5Builder : AsyncQueryRequestBuilder :=
  ⟨3, "missing_table", "GET", [], [("select", "*")], Json.null⟩

/-- C5 witness: at a concrete 404 error body the raised APIError carries the
four fields verbatim. -/
theorem query_execute_raises_verbatim_upstream_error_witness :
    (AsyncQueryRequestBuilder.execute c5Transport c5Builder).1 =
      Except.error ⟨⟨some "relation does not exist", some "42P01",
        some "check the table name", some "schema cache"⟩, none⟩ :=
  query_execute_raises_verbatim_upstream_error c5Transport c5Builder
    "relation does not exist" "42P01" "check the table name" "schema cache"
    (by decide) rfl

/-- C6: on a success status whose body fails to parse into the expected
response shape, execute (Query and Single-Row alike) raises an APIError
built from the raw body, chained from the original parse failure, and
raises nothing else. -/
theorem parse_failure_on_success_status_chains (t : Transport)
    (qb : AsyncQueryRequestBuilder) (sb : AsyncSingleRequestBuilder)
    (e1 e2 : ValidationError) :
    (200 ≤ (t qb.requestOf).status_code → (t qb.requestOf).status_code ≤ 299 →
      APIResponse.from_http_request_response (t qb.requestOf).body = Except.error e1 →
      (AsyncQueryRequestBuilder.execute t qb).1 =
        Except.error ⟨APIError.fromJson (t qb.requestOf).body, some e1⟩) ∧
    (200 ≤ (t sb.requestOf).status_code → (t sb.requestOf).status_code ≤ 299 →
      SingleAPIResponse.from_http_request_response (t sb.requestOf).body = Except.error e2 →
      (AsyncSingleRequestBuilder.execute t sb).1 =
        Except.error ⟨APIError.fromJson (t sb.requestOf).body, some e2⟩) := by
  constructor
  · intro h1 h2 hparse
    show queryOutcome (t qb.requestOf) = _
    unfold queryOutcome
    rw [if_pos ⟨h1, h2⟩, hparse]
  · intro h1 h2 hparse
    show singleOutcome (t sb.requestOf) = _
    unfold singleOutcome
    rw [if_pos ⟨h1, h2⟩, hparse]

/-- Concrete transport with a 200 status and a non-array, non-object body,
used to witness C6. -/
def c6Transport : Transport := fun _ => ⟨200, Json.str "oops"⟩

/-- Concrete Query builder used to witness C6. -/
def c6QueryBuilder : AsyncQueryRequestBuilder :=
  ⟨4, "countries", "GET", [], [], Json.null⟩

/-- Concrete Single-Row builder used to witness C6. -/
def c6SingleBuilder : AsyncSingleRequestBuilder :=
  ⟨4, "countries", "GET", [("Accept", singleObjectAccept)], [], Json.null⟩

/-- C6 witness: at a concrete 200 response with a bare string body, both
executors raise the APIError built from the raw body with the parse
failure chained as cause. -/
theorem parse_failure_on_success_status_chains_witness :
    (AsyncQueryRequestBuilder.execute c6Transport c6QueryBuilder).1 =
      Except.error ⟨APIError.fromJson (Json.str "oops"), some ⟨Json.str "oops"⟩⟩ ∧
    (AsyncSingleRequestBuilder.execute c6Transport c6SingleBuilder).1 =
      Except.error ⟨APIError.fromJson (Json.str "oops"), some ⟨Json.str "oops"⟩⟩ :=
  ⟨(parse_failure_on_success_status_chains c6Transport c6QueryBuilder c6SingleBuilder
      ⟨Json.str "oops"⟩ ⟨Json.str "oops"⟩).1 (by decide) (by decide) rfl,
   (parse_failure_on_success_status_chains c6Transport c6QueryBuilder c6SingleBuilder
      ⟨Json.str "oops"⟩ ⟨Json.str "oops"⟩).2 (by decide) (by decide) rfl⟩

/-- C3: when the underlying Single-Row execute raises an APIError whose
details are non-empty and contain the zero-rows substring, the Maybe-Single
execute does not raise and returns the empty single response with null data
and count 0. -/
theorem maybe_single_recovers_zero_rows (truthy : SingleAPIResponse → Bool)
    (t : Transport) (mb : AsyncMaybeSingleRequestBuilder) (e : Raised)
    (tr : List RequestRecord) (d : String) :
    AsyncSingleRequestBuilder.execute t mb.toSingle = (Except.error e, tr) →
    e.error.details = some d → d ≠ "" → strContainsSub d zeroRowsMsg = true →
    AsyncMaybeSingleRequestBuilder.execute truthy t mb =
      (Except.ok SingleAPIResponse.emptyResult, tr) := by
  intro hex hdet hne hsub
  unfold AsyncMaybeSingleRequestBuilder.execute
  rw [hex]
  show (maybeOutcome truthy (Except.error e), tr) = _
  simp only [maybeOutcome]
  rw [hdet]
  show (if d ≠ "" ∧ strContainsSub d zeroRowsMsg = true then
      Except.ok SingleAPIResponse.emptyResult
    else Except.error (Raised.mk missingResponseError none), tr) =
    (Except.ok SingleAPIResponse.emptyResult, tr)
  rw [if_pos ⟨hne, hsub⟩]

/-- Concrete transport raising the upstream zero-rows error, witnessing C3. -/
def c3Transport : Transport :=
  fun _ => ⟨406, Json.obj
    [("message", Json.str "JSON object requested, multiple (or no) rows returned"),
     ("code", Json.str "PGRST116"),
     ("details", Json.str "Results contain 0 rows"),
     ("hint", Json.null)]⟩

/-- Concrete Maybe-Single builder witnessing C3. -/
def c3Builder : AsyncMaybeSingleRequestBuilder :=
  ⟨5, "countries", "GET", [("Accept", singleObjectAccept)], [], Json.null⟩

/-- C3 witness: at a concrete PGRST116 zero-rows error the Maybe-Single
execute returns the empty single response instead of raising. -/
theorem maybe_single_recovers_zero_rows_witness :
    AsyncMaybeSingleRequestBuilder.execute (fun _ => true) c3Transport c3Builder =
      (Except.ok SingleAPIResponse.emptyResult,
       [⟨"GET", "countries", Json.null, [], [("Accept", singleObjectAccept)]⟩]) :=
  maybe_single_recovers_zero_rows (fun _ => true) c3Transport c3Builder
    ⟨⟨some "JSON object requested, multiple (or no) rows returned",
      some "PGRST116", none, some "Results contain 0 rows"⟩, none⟩
    [⟨"GET", "countries", Json.null, [], [("Accept", singleObjectAccept)]⟩]
    "Results contain 0 rows" rfl rfl (by decide) (by decide)

/-- C10: when the underlying Single-Row execute returns a response, the
Maybe-Single execute returns that exact response when it is truthy, and
raises the local missing-response error with code 204 when it is falsy. -/
theorem maybe_single_passes_through_truthy_result (truthy : SingleAPIResponse → Bool)
    (t : Transport) (mb : AsyncMaybeSingleRequestBuilder) (r : SingleAPIResponse)
    (tr : List RequestRecord) :
    AsyncSingleRequestBuilder.execute t mb.toSingle = (Except.ok r, tr) →
    (truthy r = true →
      AsyncMaybeSingleRequestBuilder.execute truthy t mb = (Except.ok r, tr)) ∧
    (truthy r = false →
      AsyncMaybeSingleRequestBuilder.execute truthy t mb =
        (Except.error ⟨missingResponseError, none⟩, tr)) := by
  intro hex
  constructor
  · intro ht
    unfold AsyncMaybeSingleRequestBuilder.execute
    rw [hex]
    show (maybeOutcome truthy (Except.ok r), tr) = _
    simp only [maybeOutcome]
    rw [ht]
    rfl
  · intro ht
    unfold AsyncMaybeSingleRequestBuilder.execute
    rw [hex]
    show (maybeOutcome truthy (Except.ok r), tr) = _
    simp only [maybeOutcome]
    rw [ht]
    rfl

/-- Concrete transport returning one row object, witnessing C10. -/
def c10Transport : Transport := fun _ => ⟨200, Json.obj [("id", Json.num 1)]⟩

/-- Concrete Maybe-Single builder witnessing C10. -/
def c10Builder : AsyncMaybeSingleRequestBuilder :=
  ⟨6, "countries", "GET", [("Accept", singleObjectAccept)], [], Json.null⟩

/-- C10 witness: at a concrete 200 single-object response, with the
standard always-truthy object semantics the response is passed through
unchanged, and under an always-falsy truth test the missing-response error
is raised. -/
theorem maybe_single_passes_through_truthy_result_witness :
    AsyncMaybeSingleRequestBuilder.execute (fun _ => true) c10Transport c10Builder =
      (Except.ok ⟨Json.obj [("id", Json.num 1)], none⟩,
       [⟨"GET", "countries", Json.null, [], [("Accept", singleObjectAccept)]⟩]) ∧
    AsyncMaybeSingleRequestBuilder.execute (fun _ => false) c10Transport c10Builder =
      (Except.error ⟨missingResponseError, none⟩,
       [⟨"GET", "countries", Json.null, [], [("Accept", singleObjectAccept)]⟩]) :=
  ⟨(maybe_single_passes_through_truthy_result (fun _ => true) c10Transport c10Builder
      ⟨Json.obj [("id", Json.num 1)], none⟩
      [⟨"GET", "countries", Json.null, [], [("Accept", singleObjectAccept)]⟩] rfl).1 rfl,
   (maybe_single_passes_through_truthy_result (fun _ => false) c10Transport c10Builder
      ⟨Json.obj [("id", Json.num 1)], none⟩
      [⟨"GET", "countries", Json.null, [], [("Accept", singleObjectAccept)]⟩] rfl).2 rfl⟩

/-- Concrete transport raising an APIError whose details lack the zero-rows
substring, exhibiting the C1 divergence. -/
def c1Transport : Transport :=
  fun _ => ⟨400, Json.obj [("message", Json.str "m"), ("code", Json.str "42"),
    ("hint", Json.str "h"), ("details", Json.str "boom")]⟩

/-- Concrete Maybe-Single builder exhibiting the C1 divergence. -/
def c1Builder : AsyncMaybeSingleRequestBuilder :=
  ⟨7, "countries", "GET", [("Accept", singleObjectAccept)], [], Json.null⟩

/-- C1: the except block of the Maybe-Single execute returns only in the
zero-rows case and never re-raises, so an APIError whose details lack the
zero-rows substring is swallowed and replaced by the synthetic
missing-response error: at this concrete input the underlying execute
raises the upstream error, yet the Maybe-Single execute raises the local
204 error whose fields differ from the original. -/
theorem maybe_single_swallows_other_api_errors :
    (AsyncSingleRequestBuilder.execute c1Transport c1Builder.toSingle).1 =
      Except.error ⟨⟨some "m", some "42", some "h", some "boom"⟩, none⟩ ∧
    (AsyncMaybeSingleRequestBuilder.execute (fun _ => true) c1Transport c1Builder).1 =
      Except.error ⟨missingResponseError, none⟩ ∧
    missingResponseError.message ≠ some "m" ∧
    missingResponseError.code ≠ some "42" ∧
    missingResponseError.details ≠ some "boom" :=
  ⟨rfl, rfl, by decide, by decide, by decide⟩

/-- Concrete transport raising an APIError that carries no details field,
exhibiting the C2 divergence. -/
def c2Transport : Transport :=
  fun _ => ⟨500, Json.obj [("message", Json.str "server exploded")]⟩

/-- Concrete Maybe-Single builder exhibiting the C2 divergence. -/
def c2Builder : AsyncMaybeSingleRequestBuilder :=
  ⟨8, "countries", "GET", [("Accept", singleObjectAccept)], [], Json.null⟩

/-- C2: the synthetic code-204 missing-response branch is reachable when the
underlying Single-Row execute raises an APIError: at this concrete input
the underlying execute raises an upstream APIError, and the Maybe-Single
execute nevertheless raises the local missing-response error with code
204, refuting the claim that the branch is never taken after a raised
APIError. -/
theorem maybe_single_defensive_branch_taken_after_api_error :
    (AsyncSingleRequestBuilder.execute c2Transport c2Builder.toSingle).1 =
      Except.error ⟨⟨some "server exploded", none, none, none⟩, none⟩ ∧
    (AsyncMaybeSingleRequestBuilder.execute (fun _ => true) c2Transport c2Builder).1 =
      Except.error ⟨missingResponseError, none⟩ ∧
    missingResponseError.code = some "204" :=
  ⟨rfl, rfl, rfl⟩

end Postgrest
